import Mathlib

/-!
Verification of the Wi-Fi provisioning utility (`wifi_setup.py`).

Strings are modelled as `List Char`.  The filesystem state relevant to the
program is the content of the wpa_supplicant configuration file
(`Option (List Char)`, `none` when the file does not exist).  External
commands (`nmcli` invocations, directory creation, file appends, arming the
shutdown timer) are recorded as an explicit event trace, and their
success or failure is driven by boolean fields of an explicit world/
environment record, so that every code path of the Python source becomes a
branch of a total function.
-/

namespace WifiSetup

/-- The ASCII whitespace characters removed by Python's `str.strip()`
(the Unicode space characters Python additionally strips are not needed
by any claim). -/
def isPySpace (c : Char) : Bool :=
  c = ' ' || c = '\t' || c = '\n' || c = '\r' || c = '\x0b' || c = '\x0c'

/-- Python `str.strip()`: remove leading and trailing whitespace. -/
def pyStrip (l : List Char) : List Char :=
  ((l.dropWhile isPySpace).reverse.dropWhile isPySpace).reverse

/-- Python `str.replace` with a single-character needle: every occurrence
of `target` is replaced by `repl`. -/
def replaceChar (target : Char) (repl : List Char) (l : List Char) : List Char :=
  (l.map (fun c => if c = target then repl else [c])).flatten

/-- `escape_wpa` from `wifi_setup.py`:
`value.replace("\\", "\\\\").replace('"', '\\"')` — first double every
backslash, then put a backslash in front of every double quote. -/
def escape_wpa (l : List Char) : List Char :=
  replaceChar '"' ['\\', '"'] (replaceChar '\\' ['\\', '\\'] l)

/-- The per-character codeword realised by the two chained replaces of
`escape_wpa`. -/
def escapeChar (c : Char) : List Char :=
  if c = '\\' then ['\\', '\\'] else if c = '"' then ['\\', '"'] else [c]

/-- The `network={...}` block `write_wifi_credentials` builds (f-string in
the source, lines 139-145). -/
def network_block (ssid password : List Char) : List Char :=
  ("\nnetwork=\x7b\n    ssid=\"".toList) ++ escape_wpa ssid
    ++ ("\"\n    psk=\"".toList) ++ escape_wpa password
    ++ ("\"\n    key_mgmt=WPA-PSK\n\x7d\n".toList)

/-- The substring `f'ssid="{escape_wpa(ssid)}"'` whose presence in the
existing file makes `write_wifi_credentials` skip the append. -/
def ssid_needle (ssid : List Char) : List Char :=
  ("ssid=\"".toList) ++ escape_wpa ssid ++ ("\"".toList)

/-- Externally visible actions performed by the provisioning code. -/
inductive Event where
  | mkdirParents : Event
  | fileAppend (content : List Char) : Event
  | deleteProfile (name : List Char) : Event
  | nmcliConnect (ssid password iface : List Char) : Event
  | armShutdown : Event
  | connDown (name : List Char) : Event
deriving DecidableEq

/-- The state and failure switches the portal handler interacts with:
the configuration file, whether the filesystem append raises `OSError`,
whether `nmcli connection delete` exits non-zero (its exit status is
ignored by the code), whether `nmcli device wifi connect` exits non-zero,
and the global `WIFI_INTERFACE`. -/
structure World where
  file : Option (List Char)
  persistFails : Bool
  deleteFails : Bool
  connectFails : Bool
  iface : List Char
deriving DecidableEq

/-- `write_wifi_credentials(ssid, password)` (lines 138-159): read the
existing file if present; if `ssid="<escaped>"` already occurs, return
without touching the file; otherwise create the parent directories and
append the network block.  `.error ()` models the `OSError` a failing
write raises (caught by the portal); the trace records completed durable
actions only, so a failed write contributes no events. -/
def write_wifi_credentials (ssid password : List Char) (w : World) :
    Except Unit World × List Event :=
  if ssid_needle ssid <:+: w.file.getD [] then (.ok w, [])
  else if w.persistFails then (.error (), [])
  else (.ok { w with file := some (w.file.getD [] ++ network_block ssid password) },
        [.mkdirParents, .fileAppend (network_block ssid password)])

/-- `connect_to_wifi(ssid, password)` (lines 162-167): `nmcli connection
delete <ssid>` with `check=False` (exit status ignored), then `nmcli
device wifi connect <ssid> password <password> ifname <iface>` with
`check=True`, whose non-zero exit raises (`.error ()`). -/
def connect_to_wifi (ssid password iface : List Char)
    (deleteFails connectFails : Bool) : Except Unit Unit × List Event :=
  (if connectFails then .error () else .ok (),
   [.deleteProfile ssid, .nmcliConnect ssid password iface])

/-- What one run of the background worker spawned by `schedule_shutdown`
does (lines 170-178). -/
inductive ShutdownStep where
  | sleepSeconds (s : Nat) : ShutdownStep
  | hotspotStop : ShutdownStep
  | exitProcess (code : Nat) : ShutdownStep
deriving DecidableEq

/-- The body of `_shutdown` in `schedule_shutdown`: `time.sleep(2)`,
`stop_hotspot()`, `time.sleep(1)`, `os._exit(0)`. -/
def shutdown_worker : List ShutdownStep :=
  [.sleepSeconds 2, .hotspotStop, .sleepSeconds 1, .exitProcess 0]

/-- Terminal result of one POST submission. -/
inductive Outcome where
  | validationError : Outcome
  | provisionFailed : Outcome
  | success : Outcome
deriving DecidableEq

/-- What the portal handler returns for one POST: the outcome, the world
after the handler ran, the trace of external actions in order, and the
message (with its error flag) passed to `render_form`. -/
structure PortalResult where
  outcome : Outcome
  world : World
  events : List Event
  message : String
  isError : Bool
deriving DecidableEq

/-- Message rendered on validation failure (line 188). -/
def requiredMsg : String := "SSID and password are required."

/-- Message rendered on full success (line 194). -/
def successMsg : String := "Wi-Fi connected successfully. Hotspot is shutting down."

/-- Generic message rendered when persist or connect raised (line 197). -/
def failedMsg : String := "Connection failed. Please verify credentials and retry."

/-- The POST branch of `portal()` (lines 183-197): trim both form fields
(`None` when a field is absent, then `or ""`), reject if either is empty,
otherwise run `write_wifi_credentials` then `connect_to_wifi`, arming
`schedule_shutdown` only when both succeeded; any exception from either
step yields the generic failure message. -/
def portal_post (formSsid formPassword : Option (List Char)) (w : World) :
    PortalResult :=
  let ssid := pyStrip (formSsid.getD [])
  let password := pyStrip (formPassword.getD [])
  if ssid = [] ∨ password = [] then
    { outcome := .validationError, world := w, events := [],
      message := requiredMsg, isError := true }
  else
    match write_wifi_credentials ssid password w with
    | (.error _, _) =>
        { outcome := .provisionFailed, world := w, events := [],
          message := failedMsg, isError := true }
    | (.ok w1, pevs) =>
        match connect_to_wifi ssid password w.iface w.deleteFails w.connectFails with
        | (.error _, cevs) =>
            { outcome := .provisionFailed, world := w1, events := pevs ++ cevs,
              message := failedMsg, isError := true }
        | (.ok _, cevs) =>
            { outcome := .success, world := w1,
              events := pevs ++ cevs ++ [.armShutdown],
              message := successMsg, isError := false }

/-- `detect_wifi_interface` (lines 88-94) applied to the stdout lines of
`nmcli -t -f DEVICE,TYPE device status`: first line whose colon-split
fields have the second equal to `wifi` and a non-empty first field. -/
def detect_wifi_interface : List (List Char) → List Char
  | [] => []
  | line :: rest =>
      let parts := line.splitOn ':'
      if 2 ≤ parts.length ∧ parts.getD 1 [] = ("wifi".toList) ∧ parts.getD 0 [] ≠ [] then
        parts.getD 0 []
      else detect_wifi_interface rest

/-- `get_active_connection_for_device` (lines 97-103) applied to the
stdout lines of `nmcli -t -f NAME,DEVICE connection show --active`. -/
def get_active_connection_for_device (device : List Char) :
    List (List Char) → List Char
  | [] => []
  | line :: rest =>
      let parts := line.splitOn ':'
      if 2 ≤ parts.length ∧ parts.getD 1 [] = device then parts.getD 0 []
      else get_active_connection_for_device device rest

/-- External facts `main` and the hotspot controller depend on: the
connectivity probe result, the device-status lines, whether the
`nmcli device wifi hotspot` command (run with `check=True`) exits
non-zero, and the active-connection lines queried after a successful
hotspot start. -/
structure Env where
  internetConnected : Bool
  deviceStatusLines : List (List Char)
  hotspotCmdFails : Bool
  activeConnLines : List (List Char)
deriving DecidableEq

/-- `start_hotspot` (lines 106-125): the `managed yes` command runs with
`check=False` (ignored); the hotspot command raises on failure; on
success `HOTSPOT_CONNECTION_NAME` is set to the active connection of the
interface, `or "Hotspot"` when that query returned the empty string. -/
def start_hotspot (iface : List Char) (env : Env) : Except Unit (List Char) :=
  if env.hotspotCmdFails then .error ()
  else
    let active := get_active_connection_for_device iface env.activeConnLines
    .ok (if active = [] then ("Hotspot".toList) else active)

/-- `stop_hotspot` (lines 128-131): when a connection name is remembered,
run `nmcli connection down <name>` with `check=False` — a non-zero exit
of the teardown command is ignored, so the function never raises. -/
def stop_hotspot (hotspotConnectionName : List Char) (downCmdFails : Bool) :
    Except Unit (List Event) :=
  if hotspotConnectionName = [] then .ok []
  else .ok [.connDown hotspotConnectionName]

/-- How far `main` (lines 241-265) gets. -/
inductive MainResult where
  | exitCode (code : Nat) : MainResult
  | fatalException : MainResult
  | portalServing (iface hotspotConnectionName : List Char) : MainResult
deriving DecidableEq

/-- `main`: return 0 when already online; return 1 when no wifi interface
is found; propagate the hotspot-start exception; otherwise reach
`app.run` (the portal HTTP listener is bound only in this last case). -/
def main (env : Env) : MainResult :=
  if env.internetConnected then .exitCode 0
  else
    let iface := detect_wifi_interface env.deviceStatusLines
    if iface = [] then .exitCode 1
    else
      match start_hotspot iface env with
      | .error _ => .fatalException
      | .ok hotspotConnectionName => .portalServing iface hotspotConnectionName

/-- Whether `main` reached `app.run`, i.e. whether the HTTP listener of
the portal was bound. -/
def portalBound : MainResult → Bool
  | .portalServing _ _ => true
  | _ => false

/-- A scan deciding that every double quote in the list is escaped: a
backslash consumes the following character, and a double quote reached
outside such an escape makes the scan fail. -/
def quotesEscaped : List Char → Bool
  | [] => true
  | [c] => if c = '"' then false else true
  | c :: d :: rest =>
      if c = '\\' then quotesEscaped rest
      else if c = '"' then false
      else quotesEscaped (d :: rest)

/-! ### Helper lemmas about `escape_wpa` -/

theorem replaceChar_nil (t : Char) (r : List Char) : replaceChar t r [] = [] := rfl

theorem replaceChar_cons (t : Char) (r : List Char) (a : Char) (l : List Char) :
    replaceChar t r (a :: l) = (if a = t then r else [a]) ++ replaceChar t r l := by
  simp [replaceChar]

theorem escape_wpa_nil : escape_wpa [] = [] := rfl

theorem escape_wpa_cons (a : Char) (l : List Char) :
    escape_wpa (a :: l) = escapeChar a ++ escape_wpa l := by
  by_cases ha : a = '\\'
  · subst ha
    simp [escape_wpa, replaceChar_cons, escapeChar]
  · by_cases hq : a = '"'
    · subst hq
      simp [escape_wpa, replaceChar_cons, escapeChar]
    · simp [escape_wpa, replaceChar_cons, escapeChar, ha, hq]

theorem escapeChar_ne_nil (a : Char) : escapeChar a ≠ [] := by
  unfold escapeChar
  split
  · simp
  · split <;> simp

theorem escape_wpa_flatten (l : List Char) :
    escape_wpa l = (l.map escapeChar).flatten := by
  induction l with
  | nil => rfl
  | cons a l ih => simp [escape_wpa_cons, ih]

theorem quotesEscaped_escape_wpa (l : List Char) :
    quotesEscaped (escape_wpa l) = true := by
  induction l with
  | nil => rfl
  | cons a l ih =>
    rw [escape_wpa_cons]
    by_cases ha : a = '\\'
    · subst ha
      simpa [escapeChar, quotesEscaped] using ih
    · by_cases hq : a = '"'
      · subst hq
        simpa [escapeChar, quotesEscaped] using ih
      · rw [show escapeChar a = [a] from by simp [escapeChar, ha, hq]]
        cases h : escape_wpa l with
        | nil => simp [quotesEscaped, hq]
        | cons d rest =>
          rw [h] at ih
          simpa [quotesEscaped, ha, hq] using ih

theorem escapeChar_cases (a : Char) :
    (a = '\\' ∧ escapeChar a = ['\\', '\\']) ∨
    (a = '"' ∧ escapeChar a = ['\\', '"']) ∨
    (a ≠ '\\' ∧ a ≠ '"' ∧ escapeChar a = [a]) := by
  by_cases h1 : a = '\\'
  · exact Or.inl ⟨h1, by simp [escapeChar, h1]⟩
  · by_cases h2 : a = '"'
    · exact Or.inr (Or.inl ⟨h2, by simp [escapeChar, h1, h2]⟩)
    · exact Or.inr (Or.inr ⟨h1, h2, by simp [escapeChar, h1, h2]⟩)

theorem escape_wpa_inj_aux : ∀ s t : List Char, escape_wpa s = escape_wpa t → s = t := by
  intro s
  induction s with
  | nil =>
    intro t h
    cases t with
    | nil => rfl
    | cons b t' =>
      rw [escape_wpa_nil, escape_wpa_cons] at h
      exact absurd (List.append_eq_nil.mp h.symm).1 (escapeChar_ne_nil b)
  | cons a s' ih =>
    intro t h
    cases t with
    | nil =>
      rw [escape_wpa_nil, escape_wpa_cons] at h
      exact absurd (List.append_eq_nil.mp h).1 (escapeChar_ne_nil a)
    | cons b t' =>
      rw [escape_wpa_cons, escape_wpa_cons] at h
      rcases escapeChar_cases a with ⟨ha, ea⟩ | ⟨ha, ea⟩ | ⟨ha1, ha2, ea⟩
      · rcases escapeChar_cases b with ⟨hb, eb⟩ | ⟨hb, eb⟩ | ⟨hb1, hb2, eb⟩
        · rw [ea, eb] at h
          injection h with _ h
          injection h with _ h
          rw [ha, hb, ih t' h]
        · rw [ea, eb] at h
          injection h with _ h
          injection h with h _
          exact absurd h (by decide)
        · rw [ea, eb] at h
          injection h with h _
          exact absurd h.symm hb1
      · rcases escapeChar_cases b with ⟨hb, eb⟩ | ⟨hb, eb⟩ | ⟨hb1, hb2, eb⟩
        · rw [ea, eb] at h
          injection h with _ h
          injection h with h _
          exact absurd h (by decide)
        · rw [ea, eb] at h
          injection h with _ h
          injection h with _ h
          rw [ha, hb, ih t' h]
        · rw [ea, eb] at h
          injection h with h _
          exact absurd h.symm hb1
      · rcases escapeChar_cases b with ⟨hb, eb⟩ | ⟨hb, eb⟩ | ⟨hb1, hb2, eb⟩
        · rw [ea, eb] at h
          injection h with h _
          exact absurd h ha1
        · rw [ea, eb] at h
          injection h with h _
          exact absurd h ha1
        · rw [ea, eb] at h
          injection h with h1 h2
          rw [h1, ih t' h2]

/-! ### Helper lemmas about the network block and the presence check -/

theorem network_block_decomp (ssid password : List Char) :
    network_block ssid password =
      ("\nnetwork=\x7b\n    ".toList) ++ ssid_needle ssid ++
        (("\n    psk=\"".toList) ++ escape_wpa password ++
          ("\"\n    key_mgmt=WPA-PSK\n\x7d\n".toList)) := by
  have h1 : ("\nnetwork=\x7b\n    ssid=\"".toList : List Char) =
      ("\nnetwork=\x7b\n    ".toList) ++ ("ssid=\"".toList) := rfl
  have h2 : ("\"\n    psk=\"".toList : List Char) =
      ("\"".toList) ++ ("\n    psk=\"".toList) := rfl
  simp only [network_block, ssid_needle, h1, h2, List.append_assoc]

theorem infix_append_left (a : List Char) {l b : List Char} (h : l <:+: b) :
    l <:+: a ++ b := by
  obtain ⟨u, v, huv⟩ := h
  exact ⟨a ++ u, v, by rw [← huv]; simp [List.append_assoc]⟩

theorem ssid_needle_infix_block (ssid password : List Char) :
    ssid_needle ssid <:+: network_block ssid password := by
  rw [network_block_decomp]
  exact ⟨("\nnetwork=\x7b\n    ".toList), _, rfl⟩

theorem write_ok_needle (ssid password : List Char) (w w1 : World)
    (evs : List Event)
    (h : write_wifi_credentials ssid password w = (.ok w1, evs)) :
    ssid_needle ssid <:+: (w1.file.getD []) := by
  simp only [write_wifi_credentials] at h
  by_cases hin : ssid_needle ssid <:+: w.file.getD []
  · rw [if_pos hin] at h
    injection h with h1 h2
    injection h1 with h1
    rw [← h1]
    exact hin
  · rw [if_neg hin] at h
    by_cases hp : w.persistFails = true
    · rw [if_pos hp] at h
      simp at h
    · rw [if_neg hp] at h
      injection h with h1 h2
      injection h1 with h1
      rw [← h1]
      exact infix_append_left _ (ssid_needle_infix_block ssid password)

/-! ### Concrete worlds and environments used by the witnesses -/

/-- A world whose configuration file already holds the `HomeNet` block. -/
def w0 : World :=
  { file := some (network_block ("HomeNet".toList) ("secret1".toList)),
    persistFails := false, deleteFails := false, connectFails := false,
    iface := ("wlan0".toList) }

/-- A fresh world: no configuration file yet, all commands succeed. -/
def wE : World :=
  { file := none, persistFails := false, deleteFails := false,
    connectFails := false, iface := ("wlan0".toList) }

/-- The world `wE` after a successful Persist of `("HomeWiFi","hunter2")`. -/
def wS1 : World :=
  { wE with file := some (network_block ("HomeWiFi".toList) ("hunter2".toList)) }

/-- An offline host with a wifi interface whose hotspot command fails. -/
def env0 : Env :=
  { internetConnected := false,
    deviceStatusLines := [("wlan0:wifi".toList)],
    hotspotCmdFails := true,
    activeConnLines := [] }

/-- An offline host where the hotspot starts and the active-connection
query reports the hotspot profile on `wlan0`. -/
def env1 : Env :=
  { internetConnected := false,
    deviceStatusLines := [("wlan0:wifi".toList)],
    hotspotCmdFails := false,
    activeConnLines := [("SmartLock-Setup:wlan0".toList)] }

/-! ### Claim theorems -/

/-- C1: Persist (`write_wifi_credentials`) is idempotent per SSID.  When
the entry `ssid="<escaped ssid>"` is already present in the configuration
file, a Persist call with that SSID and any password is a no-op success:
it returns `.ok` with the very same world (file byte-identical) and an
empty action trace.  Consequently, after any successful Persist of an
SSID, a second Persist of the same SSID with any password leaves the file
byte-identical, so persisting the same SSID twice appends exactly one
network block. -/
theorem persist_idempotent (ssid p1 p2 : List Char) (w : World) :
    (ssid_needle ssid <:+: w.file.getD [] →
      write_wifi_credentials ssid p2 w = (.ok w, [])) ∧
    (∀ w1 evs, write_wifi_credentials ssid p1 w = (.ok w1, evs) →
      write_wifi_credentials ssid p2 w1 = (.ok w1, [])) := by
  constructor
  · intro hin
    simp only [write_wifi_credentials]
    rw [if_pos hin]
  · intro w1 evs h
    have hin := write_ok_needle ssid p1 w w1 evs h
    simp only [write_wifi_credentials]
    rw [if_pos hin]

/-- C1 witness: re-persisting `HomeNet` over a file that already holds its
block succeeds and leaves the world untouched. -/
theorem persist_idempotent_witness :
    write_wifi_credentials ("HomeNet".toList) ("secret2".toList) w0 = (.ok w0, []) :=
  (persist_idempotent ("HomeNet".toList) ("secret1".toList) ("secret2".toList) w0).1
    (by decide)

/-- C2: a POST whose ssid or password field is empty after trimming
re-renders the form with the inline error message and mutates nothing:
the world (in particular the configuration file) is returned unchanged
and the action trace is empty — no persist, no connect command, no
shutdown arming. -/
theorem portal_empty_field_no_mutation (formSsid formPassword : Option (List Char))
    (w : World)
    (h : pyStrip (formSsid.getD []) = [] ∨ pyStrip (formPassword.getD []) = []) :
    portal_post formSsid formPassword w =
      { outcome := .validationError, world := w, events := [],
        message := requiredMsg, isError := true } := by
  simp only [portal_post]
  rw [if_pos h]

/-- C2 witness: a whitespace-only SSID with a non-empty password is
rejected without touching the world. -/
theorem portal_empty_field_no_mutation_witness :
    portal_post (some ("   ".toList)) (some ("hunter2".toList)) w0 =
      { outcome := .validationError, world := w0, events := [],
        message := requiredMsg, isError := true } :=
  portal_empty_field_no_mutation (some ("   ".toList)) (some ("hunter2".toList)) w0
    (Or.inl (by decide))

/-- C4: when the ssid entry is absent and the filesystem write succeeds,
Persist appends exactly one network block at the end of the configuration
file, preserving the pre-existing content verbatim, after creating the
parent directories; the block consists of the escaped SSID line, the
escaped psk line and the fixed `key_mgmt=WPA-PSK` directive. -/
theorem persist_appends_block (ssid password : List Char) (w : World)
    (hnot : ¬ ssid_needle ssid <:+: w.file.getD [])
    (hok : w.persistFails = false) :
    write_wifi_credentials ssid password w =
      (.ok { w with file := some (w.file.getD [] ++ network_block ssid password) },
       [.mkdirParents, .fileAppend (network_block ssid password)]) ∧
    network_block ssid password =
      ("\nnetwork=\x7b\n    ssid=\"".toList) ++ escape_wpa ssid
        ++ ("\"\n    psk=\"".toList) ++ escape_wpa password
        ++ ("\"\n    key_mgmt=WPA-PSK\n\x7d\n".toList) := by
  constructor
  · simp only [write_wifi_credentials]
    rw [if_neg hnot, if_neg (by simp [hok])]
  · rfl

/-- C4 witness: persisting `("HomeWiFi","hunter2")` into a fresh world
performs exactly a mkdir followed by the append of the one block. -/
theorem persist_appends_block_witness :
    (write_wifi_credentials ("HomeWiFi".toList) ("hunter2".toList) wE).2 =
      [Event.mkdirParents,
       Event.fileAppend (network_block ("HomeWiFi".toList) ("hunter2".toList))] := by
  rw [(persist_appends_block ("HomeWiFi".toList) ("hunter2".toList) wE
    (by decide) rfl).1]

/-- C5: `escape_wpa` maps every backslash to a doubled backslash and every
double quote to backslash-quote (character-wise, via `escapeChar`); the
password `pa"ss` escapes to `pa\"ss`; and in every escaped output each
double quote is consumed by a preceding backslash escape, so no unescaped
quote from the SSID or password appears inside the written quoted
strings. -/
theorem escape_wpa_spec :
    escape_wpa ("pa\"ss".toList) = ("pa\\\"ss".toList) ∧
    (∀ l : List Char, escape_wpa l = (l.map escapeChar).flatten) ∧
    (∀ l : List Char, quotesEscaped (escape_wpa l) = true) :=
  ⟨by decide, escape_wpa_flatten, quotesEscaped_escape_wpa⟩

/-- C8: `connect_to_wifi` first issues the profile deletion for the target
SSID and then exactly one connect command with the given ssid, password
and interface; the connect command's non-zero exit is what surfaces as the
raised error, and a failure of the deletion command changes nothing (its
exit status is ignored). -/
theorem connect_cmd_spec (ssid password iface : List Char) (df cf : Bool) :
    (connect_to_wifi ssid password iface df cf).2 =
      [.deleteProfile ssid, .nmcliConnect ssid password iface] ∧
    (connect_to_wifi ssid password iface df cf).1 =
      (if cf then .error () else .ok ()) ∧
    connect_to_wifi ssid password iface true cf =
      connect_to_wifi ssid password iface false cf :=
  ⟨rfl, rfl, rfl⟩

/-- C10: `escape_wpa` is injective — distinct inputs have distinct escaped
forms — and therefore the `ssid="<escaped>"` needle used by the presence
check is injective as well, so the records of two different SSIDs are
never identified with each other. -/
theorem escape_wpa_injective :
    (∀ s t : List Char, escape_wpa s = escape_wpa t → s = t) ∧
    (∀ s t : List Char, ssid_needle s = ssid_needle t → s = t) := by
  refine ⟨escape_wpa_inj_aux, ?_⟩
  intro s t h
  apply escape_wpa_inj_aux
  simp only [ssid_needle] at h
  exact List.append_cancel_left (List.append_cancel_right h)

/-- C10 witness: instantiating injectivity at a concrete escaped string. -/
theorem escape_wpa_injective_witness :
    ("pa\"ss".toList : List Char) = ("pa\"ss".toList) :=
  escape_wpa_injective.1 ("pa\"ss".toList) ("pa\"ss".toList) rfl

/-- C3: for a valid (non-empty after trimming) submission, Persist runs
before Connect.  When Persist raises, the action trace is empty — in
particular the connect command is never issued — the world is unchanged
and the generic failure message is rendered.  When Persist succeeded and
the connect command exits non-zero, the handler keeps the persisted world
(the ssid record remains in the file, not rolled back), renders the
generic failure message, and the trace is the persist actions followed by
the connect actions. -/
theorem portal_persist_before_connect (formSsid formPassword : Option (List Char))
    (ssid password : List Char) (w : World)
    (hs : pyStrip (formSsid.getD []) = ssid)
    (hp : pyStrip (formPassword.getD []) = password)
    (h1 : ssid ≠ []) (h2 : password ≠ []) :
    ((write_wifi_credentials ssid password w).1 = .error () →
      portal_post formSsid formPassword w =
        { outcome := .provisionFailed, world := w, events := [],
          message := failedMsg, isError := true }) ∧
    (∀ w1, (write_wifi_credentials ssid password w).1 = .ok w1 →
      w.connectFails = true →
      portal_post formSsid formPassword w =
        { outcome := .provisionFailed, world := w1,
          events := (write_wifi_credentials ssid password w).2 ++
            [.deleteProfile ssid, .nmcliConnect ssid password w.iface],
          message := failedMsg, isError := true } ∧
      ssid_needle ssid <:+: w1.file.getD []) := by
  have hcond : ¬ (ssid = [] ∨ password = []) := by
    rintro (hh | hh)
    · exact h1 hh
    · exact h2 hh
  rcases hw : write_wifi_credentials ssid password w with ⟨r, pevs⟩
  cases r with
  | error e =>
    constructor
    · intro _
      simp only [portal_post, hs, hp, hw]
      rw [if_neg hcond]
    · intro w1 hok _
      simp at hok
  | ok w1' =>
    constructor
    · intro herr
      simp at herr
    · intro w1 hok hcf
      have hww : w1' = w1 := by simpa using hok
      subst hww
      constructor
      · simp only [portal_post, hs, hp, hw, connect_to_wifi, hcf]
        rw [if_neg hcond]
        simp
      · exact write_ok_needle ssid password w w1' pevs hw

/-- C3 witness: with a working filesystem but a failing connect command,
the submission fails, the trace is persist-then-connect, and the record
is in the file. -/
theorem portal_persist_before_connect_witness :
    portal_post (some ("HomeWiFi".toList)) (some ("hunter2".toList))
        { wE with connectFails := true } =
      { outcome := .provisionFailed, world := { wS1 with connectFails := true },
        events :=
          [Event.mkdirParents,
           Event.fileAppend (network_block ("HomeWiFi".toList) ("hunter2".toList)),
           Event.deleteProfile ("HomeWiFi".toList),
           Event.nmcliConnect ("HomeWiFi".toList) ("hunter2".toList) ("wlan0".toList)],
        message := failedMsg, isError := true } ∧
    ssid_needle ("HomeWiFi".toList) <:+:
      ({ wS1 with connectFails := true } : World).file.getD [] := by
  have h := (portal_persist_before_connect (some ("HomeWiFi".toList))
    (some ("hunter2".toList)) ("HomeWiFi".toList) ("hunter2".toList)
    { wE with connectFails := true } (by decide) (by decide) (by decide) (by decide)).2
    { wS1 with connectFails := true } rfl rfl
  refine ⟨?_, h.2⟩
  rw [h.1]
  rfl

/-- C6: on a fully successful submission (Persist and Connect both
succeed) the handler arms the shutdown sequencer as its final action and
renders the success message; the armed background worker's behaviour is
the fixed sequence: sleep two seconds, stop the hotspot, sleep one more
second, terminate the process unconditionally. -/
theorem portal_success_arms_shutdown (formSsid formPassword : Option (List Char))
    (ssid password : List Char) (w w1 : World) (pevs : List Event)
    (hs : pyStrip (formSsid.getD []) = ssid)
    (hp : pyStrip (formPassword.getD []) = password)
    (h1 : ssid ≠ []) (h2 : password ≠ [])
    (hw : write_wifi_credentials ssid password w = (.ok w1, pevs))
    (hc : w.connectFails = false) :
    portal_post formSsid formPassword w =
      { outcome := .success, world := w1,
        events := pevs ++ [.deleteProfile ssid,
          .nmcliConnect ssid password w.iface, .armShutdown],
        message := successMsg, isError := false } ∧
    shutdown_worker =
      [.sleepSeconds 2, .hotspotStop, .sleepSeconds 1, .exitProcess 0] := by
  have hcond : ¬ (ssid = [] ∨ password = []) := by
    rintro (hh | hh)
    · exact h1 hh
    · exact h2 hh
  constructor
  · simp only [portal_post, hs, hp, hw, connect_to_wifi, hc]
    rw [if_neg hcond]
    simp
  · rfl

/-- C6 witness: the end-to-end success scenario on a fresh world. -/
theorem portal_success_arms_shutdown_witness :
    (portal_post (some ("HomeWiFi".toList)) (some ("hunter2".toList)) wE).outcome =
      Outcome.success := by
  rw [(portal_success_arms_shutdown (some ("HomeWiFi".toList))
    (some ("hunter2".toList)) ("HomeWiFi".toList) ("hunter2".toList) wE wS1
    [Event.mkdirParents,
     Event.fileAppend (network_block ("HomeWiFi".toList) ("hunter2".toList))]
    (by decide) (by decide) (by decide) (by decide) rfl rfl).1]

/-- C7: a failing hotspot-start command is fatal before credential
capture: whenever the hotspot command fails, `main` never reaches
`app.run`, so the HTTP listener is never bound; and in the offline case
with a wifi interface present, `main` ends in the propagated exception. -/
theorem hotspot_failure_no_portal (env : Env)
    (hfail : env.hotspotCmdFails = true) :
    portalBound (main env) = false ∧
    (env.internetConnected = false →
      detect_wifi_interface env.deviceStatusLines ≠ [] →
      main env = .fatalException) := by
  constructor
  · simp only [main]
    by_cases hi : env.internetConnected = true
    · rw [if_pos hi]
      rfl
    · rw [if_neg hi]
      by_cases hd : detect_wifi_interface env.deviceStatusLines = []
      · rw [if_pos hd]
        rfl
      · rw [if_neg hd]
        simp [start_hotspot, hfail, portalBound]
  · intro hi hd
    simp only [main, hi]
    rw [if_neg (by simp)]
    rw [if_neg hd]
    simp [start_hotspot, hfail]

/-- C7 witness: offline, `wlan0` present, hotspot command failing. -/
theorem hotspot_failure_no_portal_witness :
    portalBound (main env0) = false ∧ main env0 = MainResult.fatalException := by
  have h := hotspot_failure_no_portal env0 rfl
  exact ⟨h.1, h.2 rfl (by decide)⟩

/-- C9: whenever `start_hotspot` succeeds, the remembered connection name
is non-empty: it is the name of the active connection bound to the
interface, or the generic label `Hotspot` when that query yields nothing;
`stop_hotspot` issues the teardown only when a name is known and never
raises, whether or not the teardown command fails. -/
theorem hotspot_start_name (iface name : List Char) (env : Env)
    (h : start_hotspot iface env = .ok name) :
    name ≠ [] ∧
    (get_active_connection_for_device iface env.activeConnLines = [] →
      name = ("Hotspot".toList)) ∧
    (get_active_connection_for_device iface env.activeConnLines ≠ [] →
      name = get_active_connection_for_device iface env.activeConnLines) ∧
    (∀ df : Bool, stop_hotspot name df = .ok [Event.connDown name]) ∧
    (∀ df : Bool, stop_hotspot [] df = .ok []) := by
  simp only [start_hotspot] at h
  by_cases hf : env.hotspotCmdFails = true
  · rw [if_pos hf] at h
    simp at h
  · rw [if_neg hf] at h
    injection h with h
    by_cases ha : get_active_connection_for_device iface env.activeConnLines = []
    · rw [if_pos ha] at h
      rw [← h]
      exact ⟨by decide, fun _ => rfl, fun hne => absurd ha hne,
        fun df => by simp [stop_hotspot], fun df => rfl⟩
    · rw [if_neg ha] at h
      rw [← h]
      refine ⟨ha, fun he => absurd he ha, fun _ => rfl, fun df => ?_, fun df => rfl⟩
      simp only [stop_hotspot]
      rw [if_neg ha]

/-- C9 witness: a successful start whose active-connection query names the
hotspot profile. -/
theorem hotspot_start_name_witness :
    stop_hotspot ("SmartLock-Setup".toList) false =
      Except.ok [Event.connDown ("SmartLock-Setup".toList)] :=
  ((hotspot_start_name ("wlan0".toList) ("SmartLock-Setup".toList) env1
    rfl).2.2.2.1) false

end WifiSetup
